import Mathlib

/-!
Verification of the interactive viewer loop of `bluscan` (src/viewer.rs).

The viewer owns a device snapshot (`Vec<DeviceInfo>`), a selection index
(`TableState::selected : Option<usize>`) and a shared pause flag
(`Arc<AtomicBool>`).  Each loop iteration renders the UI, handles one key
event (`q`, `s`, Up, Down) and then drains at most one snapshot from the
channel.  We embed the state and each state transition as pure Lean
functions; Rust `usize` arithmetic is modelled on `Nat` with the panicking
subtraction made explicit (`usizeSub` returns `none` on underflow, matching
the overflow panic of `a - b` for `b > a`).  A step that can panic returns
`Option ViewerState`, with `none` marking the panic.
-/

namespace Bluscan

/-- Modelled from the spec: `DeviceInfo` lives in src/structs.rs, which is not
among the provided sources; fields follow §3 DATA MODEL (address string with
the placeholder sentinel, a locally-assigned identifier, display name,
pre-formatted tx-power and signal strings, detection timestamp, advertised
service identifiers, manufacturer payload keyed by a company code). -/
structure DeviceInfo where
  id : String
  address : String
  name : String
  tx_power : String
  rssi : String
  detected_at : String
  services : List String
  manufacturer_data : List (Nat × List Nat)
deriving DecidableEq

/-- Modelled from the spec: the Rust `Default` for `DeviceInfo` (src/structs.rs
is not among the provided sources) — empty strings, no services, no
manufacturer data; viewer.rs line 99 uses it as the fallback detail device. -/
def DeviceInfo.default : DeviceInfo :=
  ⟨"", "", "", "", "", "", [], []⟩

/-- Modelled from the spec: the external manufacturer-data decoder
`extract_manufacturer_data` lives in src/utils.rs, which is not among the
provided sources.  Per §6, it is a pure total collaborator producing a
`(company_code_string, payload_display_string)` pair, and absence of data
yields an empty pair. -/
def extract_manufacturer_data (md : List (Nat × List Nat)) : String × String :=
  match md with
  | [] => ("", "")
  | (code, payload) :: _ => (toString code, toString payload)

/-- The mutable state of the viewer: the current snapshot (`devices`, viewer.rs
line 29), the selection index (`table_state.selected()`), and the pause flag
(the `AtomicBool` behind `pause_signal`; the loop is the only party we model,
so the flag is a plain state field). -/
structure ViewerState where
  devices : List DeviceInfo
  selected : Option Nat
  paused : Bool
deriving DecidableEq

/-- viewer.rs lines 27-29: `TableState::default()` then `select(Some(0))`,
with an empty device vector; the pause flag arrives from the caller. -/
def initState (paused : Bool) : ViewerState :=
  ⟨[], some 0, paused⟩

/-- Rust `usize` subtraction `a - b`: underflow (`b > a`) is an arithmetic
overflow panic, modelled as `none`. -/
def usizeSub (a b : Nat) : Option Nat :=
  if b ≤ a then some (a - b) else none

/-- viewer.rs lines 155-167, the `KeyCode::Down` arm: on `Some(selected)` the
code evaluates `devices.len() - 1` (a panicking subtraction when the snapshot
is empty) and wraps to 0 from the last row; on `None` it selects 0. -/
def downStep (st : ViewerState) : Option ViewerState :=
  match st.selected with
  | some selected =>
    match usizeSub st.devices.length 1 with
    | some m => some { st with selected := some (if selected ≥ m then 0 else selected + 1) }
    | none => none
  | none => some { st with selected := some 0 }

/-- viewer.rs lines 168-180, the `KeyCode::Up` arm: on `Some(0)` the code
evaluates `devices.len() - 1` (a panicking subtraction when the snapshot is
empty); on `Some(selected)` with `selected ≠ 0` it moves to `selected - 1`;
on `None` it selects 0. -/
def upStep (st : ViewerState) : Option ViewerState :=
  match st.selected with
  | some selected =>
    if selected = 0 then
      match usizeSub st.devices.length 1 with
      | some m => some { st with selected := some m }
      | none => none
    else
      some { st with selected := some (selected - 1) }
  | none => some { st with selected := some 0 }

/-- viewer.rs lines 151-154, the s-key arm: load the pause flag and store its
logical negation. -/
def sStep (st : ViewerState) : Option ViewerState :=
  some { st with paused := !st.paused }

/-- viewer.rs lines 187-192, snapshot intake: replace the device list
wholesale with the received snapshot; select 0 only when no selection is set;
the pause flag is untouched. -/
def intakeStep (st : ViewerState) (new_devices : List DeviceInfo) : ViewerState :=
  { st with
    devices := new_devices,
    selected := if st.selected.isNone then some 0 else st.selected }

/-- The state-changing events one loop iteration can process: a Down, Up or
`s` key, any other (ignored) key, or a snapshot arriving on the channel. -/
inductive VEvent where
  | down : VEvent
  | up : VEvent
  | keyS : VEvent
  | other : VEvent
  | snapshot : List DeviceInfo → VEvent
deriving DecidableEq

/-- One state transition of the loop body (viewer.rs lines 146-192):
`_ => {}` ignores other keys; snapshot intake never panics. -/
def step (st : ViewerState) : VEvent → Option ViewerState
  | VEvent.down => downStep st
  | VEvent.up => upStep st
  | VEvent.keyS => sStep st
  | VEvent.other => some st
  | VEvent.snapshot l => some (intakeStep st l)

/-- Run a sequence of loop events from a state; `none` if any step panics. -/
def runEvents : ViewerState → List VEvent → Option ViewerState
  | st, [] => some st
  | st, e :: es =>
    match step st e with
    | some st1 => runEvents st1 es
    | none => none

/-- viewer.rs lines 57-61: the address column of the table shows the
locally-assigned `id` when the address is the placeholder
`"00:00:00:00:00:00"`, and the address itself otherwise. -/
def displayedAddress (d : DeviceInfo) : String :=
  if d.address = "00:00:00:00:00:00" then d.id else d.address

/-- viewer.rs lines 48-70: one table row per device, cells
{Address-or-ID, Name, TX Power, RSSI}. -/
def tableRows (st : ViewerState) : List (List String) :=
  st.devices.map (fun d => [displayedAddress d, d.name, d.tx_power, d.rssi])

/-- viewer.rs lines 99-102: the detail-panel device.  `table_state.selected()`
is defaulted to 0 with `unwrap_or(0)`, the list access is the guarded
`Vec::get` (`Option`-returning), and an out-of-range index falls back to
`DeviceInfo::default()` via `unwrap_or(&device_binding)`. -/
def detailDevice (st : ViewerState) : DeviceInfo :=
  ((st.devices.get? (st.selected.getD 0)).getD DeviceInfo.default)

/-- viewer.rs lines 103-114: the rows of the "More Detail" panel for a
device: detection timestamp, decimal count of services, and the decoded
manufacturer pair. -/
def detailRows (d : DeviceInfo) : List (String × String) :=
  [("Detected At:", d.detected_at),
   ("Services:", toString d.services.length),
   ("Company Code Identifier:", (extract_manufacturer_data d.manufacturer_data).1),
   ("Manufacturer Data:", (extract_manufacturer_data d.manufacturer_data).2)]

/-- viewer.rs lines 119-128: the hint-bar pause/resume label, conditioned on
the pause flag loaded at render time. -/
def hintLabel (paused : Bool) : String :=
  if paused then "[s → start scanning]" else "[s → stop scanning]"

/-- The data content of one rendered frame: table rows, detail-panel rows and
the hint-bar row. -/
structure Frame where
  rows : List (List String)
  detail : List (String × String)
  hint : List String
deriving DecidableEq

/-- viewer.rs lines 33-144, the draw closure: it reads state only.  Every
list access in it is guarded (iteration, `unwrap_or`), so rendering is a
total function of the state. -/
def renderFrame (st : ViewerState) : Frame :=
  ⟨tableRows st,
   detailRows (detailDevice st),
   ["[q → quit]", "[up/down → navigate]", hintLabel st.paused]⟩

/-! Helper lemmas -/

lemma downStep_eq (ds : List DeviceInfo) (i : Nat) (p : Bool) (h : 0 < ds.length) :
    downStep ⟨ds, some i, p⟩
      = some ⟨ds, some (if i ≥ ds.length - 1 then 0 else i + 1), p⟩ := by
  simp only [downStep, usizeSub, if_pos (show 1 ≤ ds.length from h)]

lemma upStep_eq (ds : List DeviceInfo) (i : Nat) (p : Bool) (h : 0 < ds.length) :
    upStep ⟨ds, some i, p⟩
      = some ⟨ds, some (if i = 0 then ds.length - 1 else i - 1), p⟩ := by
  by_cases hi : i = 0
  · subst hi
    simp only [upStep, usizeSub, if_pos (show 1 ≤ ds.length from h)]
    simp
  · simp only [upStep, if_neg hi]

lemma intakeStep_selected_isSome (st : ViewerState) (l : List DeviceInfo) :
    (intakeStep st l).selected.isSome = true := by
  obtain ⟨ds, sel, p⟩ := st
  cases sel <;> simp [intakeStep]

lemma step_selected_isSome (st st1 : ViewerState) (e : VEvent)
    (h1 : st.selected.isSome = true) (h2 : step st e = some st1) :
    st1.selected.isSome = true := by
  obtain ⟨ds, sel, p⟩ := st
  cases e with
  | down =>
    simp only [step, downStep] at h2
    cases sel with
    | none => cases h2; rfl
    | some i =>
      simp only at h2
      cases husz : usizeSub ds.length 1 with
      | none => rw [husz] at h2; cases h2
      | some m => rw [husz] at h2; cases h2; rfl
  | up =>
    simp only [step, upStep] at h2
    cases sel with
    | none => cases h2; rfl
    | some i =>
      by_cases hi : i = 0
      · subst hi
        simp only [if_pos rfl] at h2
        cases husz : usizeSub ds.length 1 with
        | none => rw [husz] at h2; cases h2
        | some m => rw [husz] at h2; cases h2; rfl
      · simp only [if_neg hi] at h2
        cases h2; rfl
  | keyS =>
    simp only [step, sStep] at h2
    cases h2
    exact h1
  | other =>
    simp only [step] at h2
    cases h2
    exact h1
  | snapshot l =>
    simp only [step] at h2
    cases h2
    exact intakeStep_selected_isSome ⟨ds, sel, p⟩ l

lemma runEvents_selected_isSome (events : List VEvent) :
    ∀ (st st2 : ViewerState), st.selected.isSome = true →
      runEvents st events = some st2 → st2.selected.isSome = true := by
  induction events with
  | nil =>
    intro st st2 h1 h2
    simp only [runEvents] at h2
    cases h2
    exact h1
  | cons e es ih =>
    intro st st2 h1 h2
    simp only [runEvents] at h2
    cases hstep : step st e with
    | none => rw [hstep] at h2; cases h2
    | some st1 =>
      rw [hstep] at h2
      exact ih st1 st2 (step_selected_isSome st st1 e h1 hstep) h2

/-! Claims -/

/-- Claim C1: the claim states that on an empty snapshot with a current
selection, Down/Up neither underflow nor leave the selection away from 0.
The code refutes it: on the initial state (empty snapshot, selection
`Some(0)`, viewer.rs lines 27-29) both the Down arm and the Up arm evaluate
`devices.len() - 1` with length 0, a panicking usize underflow, modelled
here as `none`. -/
theorem c1_down_up_underflow_on_empty :
    downStep (initState false) = none ∧ upStep (initState false) = none :=
  ⟨rfl, rfl⟩

/-- Claim C2, counterexample: with a non-empty snapshot of length 2 and the
stale selection 4 (left over from a longer snapshot), a single Up-arrow
yields selection 3, which is not strictly less than the new length 2. -/
theorem c2_single_up_stale_counterexample :
    upStep ⟨[DeviceInfo.default, DeviceInfo.default], some 4, false⟩
      = some ⟨[DeviceInfo.default, DeviceInfo.default], some 3, false⟩
    ∧ ¬ (3 < 2) :=
  ⟨rfl, by decide⟩

/-- Claim C2, amended: for a non-empty snapshot of length `len` and a stale
selection `i ≥ len`, a single Down-arrow yields selection 0, which is valid
(`< len`); a single Up-arrow yields selection `i - 1`, which is valid if and
only if `i = len`. -/
theorem c2_stale_recovery_amended (st : ViewerState) (i : Nat)
    (hsel : st.selected = some i) (hne : st.devices ≠ [])
    (hstale : st.devices.length ≤ i) :
    downStep st = some { st with selected := some 0 }
    ∧ 0 < st.devices.length
    ∧ upStep st = some { st with selected := some (i - 1) }
    ∧ (i - 1 < st.devices.length ↔ i = st.devices.length) := by
  obtain ⟨ds, sel, p⟩ := st
  replace hsel : sel = some i := hsel
  replace hne : ds ≠ [] := hne
  replace hstale : ds.length ≤ i := hstale
  subst hsel
  have hlen : 0 < ds.length := List.length_pos.mpr hne
  refine ⟨?_, hlen, ?_, ?_⟩
  · rw [downStep_eq ds i p hlen, if_pos (by omega : i ≥ ds.length - 1)]
  · rw [upStep_eq ds i p hlen, if_neg (by omega : ¬ i = 0)]
  · show i - 1 < ds.length ↔ i = ds.length
    omega

theorem c2_stale_recovery_amended_witness :
    downStep ⟨[DeviceInfo.default, DeviceInfo.default], some 4, false⟩
      = some ⟨[DeviceInfo.default, DeviceInfo.default], some 0, false⟩ :=
  (c2_stale_recovery_amended ⟨[DeviceInfo.default, DeviceInfo.default], some 4, false⟩ 4
    rfl (by decide) (by decide)).1

/-- Claim C3: for every snapshot and every selection index, including an
out-of-range index or an empty snapshot, the detail-panel lookup is guarded
(`Vec::get` returning `Option`, viewer.rs lines 99-102) and falls back to the
default empty device when the index is out of range; `renderFrame` is a total
function of the state, so the render step cannot panic. -/
theorem c3_render_detail_fallback (st : ViewerState)
    (h : st.devices.length ≤ st.selected.getD 0) :
    detailDevice st = DeviceInfo.default
    ∧ (renderFrame st).detail = detailRows DeviceInfo.default := by
  have h1 : st.devices.get? (st.selected.getD 0) = none := List.get?_eq_none.mpr h
  constructor
  · unfold detailDevice
    rw [h1]
    rfl
  · show detailRows (detailDevice st) = detailRows DeviceInfo.default
    unfold detailDevice
    rw [h1]
    rfl

theorem c3_render_detail_fallback_witness :
    detailDevice ⟨[DeviceInfo.default, DeviceInfo.default], some 4, false⟩
      = DeviceInfo.default :=
  (c3_render_detail_fallback ⟨[DeviceInfo.default, DeviceInfo.default], some 4, false⟩
    (by decide)).1

/-- Claim C4: on a snapshot of length at least 1 with a valid selection `i`,
Down then Up (and Up then Down) panics nowhere and returns the state to
exactly its original value, so the wrap arithmetic is a bijection on
`0..len`. -/
theorem c4_down_up_inverse (st : ViewerState) (i : Nat)
    (hsel : st.selected = some i) (hlt : i < st.devices.length) :
    Option.bind (downStep st) upStep = some st
    ∧ Option.bind (upStep st) downStep = some st := by
  obtain ⟨ds, sel, p⟩ := st
  replace hsel : sel = some i := hsel
  replace hlt : i < ds.length := hlt
  subst hsel
  have hlen : 0 < ds.length := Nat.lt_of_le_of_lt (Nat.zero_le i) hlt
  constructor
  · rw [downStep_eq ds i p hlen]
    by_cases hcase : i ≥ ds.length - 1
    · rw [if_pos hcase]
      show upStep ⟨ds, some 0, p⟩ = some ⟨ds, some i, p⟩
      rw [upStep_eq ds 0 p hlen, if_pos rfl]
      have hi : ds.length - 1 = i := by omega
      rw [hi]
    · rw [if_neg hcase]
      show upStep ⟨ds, some (i + 1), p⟩ = some ⟨ds, some i, p⟩
      rw [upStep_eq ds (i + 1) p hlen, if_neg (Nat.succ_ne_zero i)]
      simp
  · rw [upStep_eq ds i p hlen]
    by_cases hi : i = 0
    · rw [if_pos hi]
      show downStep ⟨ds, some (ds.length - 1), p⟩ = some ⟨ds, some i, p⟩
      rw [downStep_eq ds (ds.length - 1) p hlen, if_pos (by omega)]
      rw [hi]
    · rw [if_neg hi]
      show downStep ⟨ds, some (i - 1), p⟩ = some ⟨ds, some i, p⟩
      rw [downStep_eq ds (i - 1) p hlen,
        if_neg (by omega : ¬ i - 1 ≥ ds.length - 1)]
      have hsucc : i - 1 + 1 = i := by omega
      rw [hsucc]

theorem c4_down_up_inverse_witness :
    Option.bind (downStep ⟨[DeviceInfo.default], some 0, false⟩) upStep
      = some ⟨[DeviceInfo.default], some 0, false⟩ :=
  (c4_down_up_inverse ⟨[DeviceInfo.default], some 0, false⟩ 0 rfl (by decide)).1

/-- Claim C5: on a snapshot of length `len ≥ 1`, Down from the last index
`len - 1` yields selection 0, and Up from index 0 yields selection
`len - 1`. -/
theorem c5_wraparound (st : ViewerState) (hlen : 0 < st.devices.length) :
    (st.selected = some (st.devices.length - 1) →
      downStep st = some { st with selected := some 0 })
    ∧ (st.selected = some 0 →
      upStep st = some { st with selected := some (st.devices.length - 1) }) := by
  obtain ⟨ds, sel, p⟩ := st
  replace hlen : 0 < ds.length := hlen
  constructor
  · intro hsel
    replace hsel : sel = some (ds.length - 1) := hsel
    subst hsel
    rw [downStep_eq ds (ds.length - 1) p hlen, if_pos (by omega)]
  · intro hsel
    replace hsel : sel = some 0 := hsel
    subst hsel
    rw [upStep_eq ds 0 p hlen, if_pos rfl]

theorem c5_wraparound_witness :
    downStep ⟨[DeviceInfo.default], some 0, false⟩
      = some ⟨[DeviceInfo.default], some 0, false⟩ :=
  (c5_wraparound ⟨[DeviceInfo.default], some 0, false⟩ (by decide)).1 rfl

/-- Claim C6: one press of the s key stores the logical negation of the value
read from the pause flag, and two consecutive presses (with no interleaved
external write, which our single-party model makes implicit) restore the flag
to its original value; both presses leave the rest of the state untouched. -/
theorem c6_pause_toggle (st : ViewerState) :
    sStep st = some { st with paused := !st.paused }
    ∧ Option.bind (sStep st) sStep = some st := by
  obtain ⟨ds, sel, p⟩ := st
  refine ⟨rfl, ?_⟩
  show sStep ⟨ds, sel, !p⟩ = some ⟨ds, sel, p⟩
  cases p <;> rfl

/-- Claim C7: in the address column of the table, a device shows its
locally-assigned identifier exactly when its address is the placeholder
`"00:00:00:00:00:00"`, and shows the address string itself for any other
address; the first cell of each table row is `displayedAddress`. -/
theorem c7_address_display (st : ViewerState) (d : DeviceInfo) :
    (tableRows st).map (fun r => r.headD "") = st.devices.map displayedAddress
    ∧ (d.address = "00:00:00:00:00:00" → displayedAddress d = d.id)
    ∧ (d.address ≠ "00:00:00:00:00:00" → displayedAddress d = d.address) := by
  refine ⟨?_, ?_, ?_⟩
  · simp [tableRows, List.map_map, Function.comp]
  · intro h
    simp [displayedAddress, h]
  · intro h
    simp [displayedAddress, h]

theorem c7_address_display_witness :
    displayedAddress ⟨"local-id", "00:00:00:00:00:00", "", "", "", "", [], []⟩
      = "local-id" :=
  (c7_address_display (initState false)
    ⟨"local-id", "00:00:00:00:00:00", "", "", "", "", [], []⟩).2.1 rfl

/-- Claim C8: snapshot intake replaces the device list wholesale with the
received list, sets the selection to 0 only when it is `None`, and otherwise
leaves the selection index and the pause flag unchanged — with no condition
on the length of the new list, so also when it is shorter than the old. -/
theorem c8_intake_replaces (st : ViewerState) (l : List DeviceInfo) :
    (intakeStep st l).devices = l
    ∧ (st.selected = none → (intakeStep st l).selected = some 0)
    ∧ (∀ i, st.selected = some i → (intakeStep st l).selected = some i)
    ∧ (intakeStep st l).paused = st.paused := by
  obtain ⟨ds, sel, p⟩ := st
  cases sel <;> simp [intakeStep]

theorem c8_intake_replaces_witness :
    (intakeStep ⟨[], none, false⟩ [DeviceInfo.default]).selected = some 0 :=
  (c8_intake_replaces ⟨[], none, false⟩ [DeviceInfo.default]).2.1 rfl

/-- Claim C9: the hint-bar pause/resume label is a function of the pause flag
value read at render time: it reads "stop scanning" when the flag is false
and "start scanning" when it is true. -/
theorem c9_hint_label (st : ViewerState) :
    (renderFrame st).hint
      = ["[q → quit]", "[up/down → navigate]", hintLabel st.paused]
    ∧ hintLabel false = "[s → stop scanning]"
    ∧ hintLabel true = "[s → start scanning]" :=
  ⟨rfl, rfl, rfl⟩

/-- Claim C10: the selection is never `None` at any reachable point of the
loop: it starts at `Some(0)` before the first iteration, and every event the
loop processes (Down, Up, s, ignored key, snapshot intake) keeps it a
`Some`, so the `None` arms of the navigation handlers are unreachable. -/
theorem c10_selection_always_some (p : Bool) :
    (initState p).selected = some 0
    ∧ ∀ (events : List VEvent) (st2 : ViewerState),
        runEvents (initState p) events = some st2 →
        st2.selected.isSome = true := by
  refine ⟨rfl, ?_⟩
  intro events st2 h
  exact runEvents_selected_isSome events (initState p) st2 rfl h

theorem c10_selection_always_some_witness :
    (⟨[DeviceInfo.default], some 0, false⟩ : ViewerState).selected.isSome = true :=
  (c10_selection_always_some false).2
    [VEvent.snapshot [DeviceInfo.default], VEvent.down]
    ⟨[DeviceInfo.default], some 0, false⟩ rfl

end Bluscan
